import Mathlib

/-!
Verification of the lunar-lander simulation core (`src/unnamed/part_000`,
class `LunarLander` and the pilot-input handling of `askForThrust`).

JavaScript numbers are modelled as exact rationals (`ℚ`); the wall-clock
`dt` computed from `Date.now()` inside `updatePhysics` is exposed as an
explicit parameter `dt` of `tick`, so that physics is a pure function of
the state and the elapsed time.  The `landed`/`crashed` boolean pair of the
source is kept verbatim; the spec's derived `outcome` enumeration is
defined on top of it.
-/

namespace BunMoon

/-- Moon gravity, m/s² (source constant `GRAVITY`). -/
def GRAVITY : ℚ := 1.625

/-- Acceleration per thrust percentage point (source constant `THRUST_POWER`). -/
def THRUST_POWER : ℚ := 0.15

/-- Fuel consumed per thrust percentage point per second
(source constant `FUEL_CONSUMPTION_RATE`). -/
def FUEL_CONSUMPTION_RATE : ℚ := 0.1

/-- The spec's mission outcome, derived from the source's `landed`/`crashed` flags. -/
inductive Outcome
  | InFlight
  | Landed
  | Crashed
deriving DecidableEq, Repr

/-- The mutable state of the source's `LunarLander` class
(minus `lastUpdateTime`, which only feeds the `dt` parameter of `tick`). -/
structure LunarLander where
  altitude : ℚ
  velocity : ℚ
  fuel : ℚ
  safeLandingSpeed : ℚ
  thrust : ℚ
  landed : Bool
  crashed : Bool
  outOfFuel : Bool
  impactVelocity : Option ℚ
deriving DecidableEq, Repr

/-- The source constructor `new LunarLander(initialAltitude, initialVelocity,
initialFuel, safeLandingSpeed)`. -/
def mkLander (initialAltitude initialVelocity initialFuel safeLandingSpeed : ℚ) :
    LunarLander :=
  { altitude := initialAltitude
    velocity := initialVelocity
    fuel := initialFuel
    safeLandingSpeed := safeLandingSpeed
    thrust := 0
    landed := false
    crashed := false
    outOfFuel := false
    impactVelocity := none }

/-- Outcome as the spec reads it off the two flags: `landed` means `Landed`,
`crashed` means `Crashed`, otherwise the mission is still in flight. -/
def LunarLander.outcome (s : LunarLander) : Outcome :=
  if s.landed then Outcome.Landed
  else if s.crashed then Outcome.Crashed
  else Outcome.InFlight

/-- `updatePhysics`, with the wall-clock `dt` as a parameter.  A literal
translation of the source: the guard on `landed || crashed`, the fuel
branch (which also computes the thrust acceleration used below), the
velocity/altitude integration, and the touchdown check. -/
def tick (s : LunarLander) (dt : ℚ) : LunarLander :=
  if s.landed || s.crashed then s
  else
    let fuelStep : LunarLander × ℚ :=
      if s.fuel > 0 then
        let thrustAccel := s.thrust * THRUST_POWER
        let fuelConsumed := s.thrust * FUEL_CONSUMPTION_RATE * dt
        let newFuel := s.fuel - fuelConsumed
        if newFuel ≤ 0 then
          ({ s with fuel := 0, outOfFuel := true, thrust := 0 }, thrustAccel)
        else
          ({ s with fuel := newFuel }, thrustAccel)
      else if !s.outOfFuel then
        ({ s with outOfFuel := true, thrust := 0 }, 0)
      else
        (s, 0)
    let s1 := fuelStep.1
    let netAccel := GRAVITY - fuelStep.2
    let v1 := s1.velocity + netAccel * dt
    let a1 := s1.altitude - v1 * dt
    if a1 ≤ 0 then
      if v1 ≤ s1.safeLandingSpeed then
        { s1 with altitude := 0, impactVelocity := some v1, landed := true,
                  velocity := 0, thrust := 0 }
      else
        { s1 with altitude := 0, impactVelocity := some v1, crashed := true,
                  velocity := 0, thrust := 0 }
    else
      { s1 with velocity := v1, altitude := a1 }

/-- The thrust acceleration `tick` computes in its fuel branch:
`thrust * THRUST_POWER` while fuel remains, `0` once the tank is empty. -/
def tickThrustAccel (s : LunarLander) : ℚ :=
  if s.fuel > 0 then s.thrust * THRUST_POWER else 0

/-- The velocity right after the integration step of `tick`
(`velocity += (GRAVITY - thrustAccel) * dt`). -/
def tickVelocity (s : LunarLander) (dt : ℚ) : ℚ :=
  s.velocity + (GRAVITY - tickThrustAccel s) * dt

/-- The altitude right after the integration step of `tick`, before the
clamp to the surface (`altitude -= velocity * dt`). -/
def tickRawAltitude (s : LunarLander) (dt : ℚ) : ℚ :=
  s.altitude - tickVelocity s dt * dt

/-- The state after the fuel-accounting branch of `tick`, before the
velocity/altitude integration. -/
def tickFuelState (s : LunarLander) (dt : ℚ) : LunarLander :=
  if s.fuel > 0 then
    if s.fuel - s.thrust * FUEL_CONSUMPTION_RATE * dt ≤ 0 then
      { s with fuel := 0, outOfFuel := true, thrust := 0 }
    else
      { s with fuel := s.fuel - s.thrust * FUEL_CONSUMPTION_RATE * dt }
  else if !s.outOfFuel then
    { s with outOfFuel := true, thrust := 0 }
  else s

/-- The source's `setThrust(newThrust)`: forced to 0 after touchdown,
otherwise clamped into [0,100], then forced to 0 when the tank is empty. -/
def setThrust (s : LunarLander) (newThrust : ℚ) : LunarLander :=
  if s.landed || s.crashed then { s with thrust := 0 }
  else
    let clampedThrust := max 0 (min 100 newThrust)
    let clampedThrust2 := if s.fuel ≤ 0 then 0 else clampedThrust
    { s with thrust := clampedThrust2 }

/-- A sequence of physics updates with the given elapsed times. -/
def runTicks (s : LunarLander) (dts : List ℚ) : LunarLander :=
  dts.foldl tick s

/-- The longest leading run of decimal digits of a character list. -/
def leadingDigits (cs : List Char) : List Char :=
  cs.takeWhile Char.isDigit

/-- Leading and trailing whitespace removed from a character list. -/
def trimChars (cs : List Char) : List Char :=
  ((cs.dropWhile Char.isWhitespace).reverse.dropWhile Char.isWhitespace).reverse

/-- Model of JavaScript `String.prototype.trim`. -/
def jsTrim (str : String) : String := String.mk (trimChars str.toList)

/-- The natural number denoted by a list of decimal digits. -/
def digitsToNat (ds : List Char) : Nat :=
  ds.foldl (fun a c => a * 10 + (c.toNat - 48)) 0

/-- Model of JavaScript `parseInt(str, 10)`: skip leading/trailing
whitespace, accept an optional sign, then read the longest prefix of
decimal digits; the result is `none` (JavaScript `NaN`) when no digit
follows. -/
def parseIntJS (str : String) : Option Int :=
  match (jsTrim str).toList with
  | '-' :: rest =>
      if (leadingDigits rest).isEmpty then none
      else some (-(digitsToNat (leadingDigits rest) : Int))
  | '+' :: rest =>
      if (leadingDigits rest).isEmpty then none
      else some (digitsToNat (leadingDigits rest))
  | cs =>
      if (leadingDigits cs).isEmpty then none
      else some (digitsToNat (leadingDigits cs))

/-- What one accepted line of pilot input produced, for the display side:
the thrust command was handed to `setThrust`, an invalid-input notice was
printed, or the empty line was ignored. -/
inductive InputEffect
  | applied (n : Int)
  | invalidNotice
  | ignoredEmpty
deriving DecidableEq, Repr

/-- The body of the source's `askForThrust` once a line arrives while the
game is running: `parseInt` the answer; when numeric, apply it through
`setThrust`; when non-numeric and non-empty, print an error and leave the
lander alone; when empty after trimming, do nothing. -/
def processThrustLine (s : LunarLander) (answer : String) :
    LunarLander × InputEffect :=
  match parseIntJS answer with
  | some thrustInput => (setThrust s (thrustInput : ℚ), InputEffect.applied thrustInput)
  | none =>
      if jsTrim answer ≠ "" then (s, InputEffect.invalidNotice)
      else (s, InputEffect.ignoredEmpty)

/-! ## Helper lemmas about the physics step -/

theorem tickFuelState_altitude (s : LunarLander) (dt : ℚ) :
    (tickFuelState s dt).altitude = s.altitude := by
  unfold tickFuelState; split_ifs <;> rfl

theorem tickFuelState_velocity (s : LunarLander) (dt : ℚ) :
    (tickFuelState s dt).velocity = s.velocity := by
  unfold tickFuelState; split_ifs <;> rfl

theorem tickFuelState_safe (s : LunarLander) (dt : ℚ) :
    (tickFuelState s dt).safeLandingSpeed = s.safeLandingSpeed := by
  unfold tickFuelState; split_ifs <;> rfl

theorem tickFuelState_landed (s : LunarLander) (dt : ℚ) :
    (tickFuelState s dt).landed = s.landed := by
  unfold tickFuelState; split_ifs <;> rfl

theorem tickFuelState_crashed (s : LunarLander) (dt : ℚ) :
    (tickFuelState s dt).crashed = s.crashed := by
  unfold tickFuelState; split_ifs <;> rfl

theorem tickFuelState_impact (s : LunarLander) (dt : ℚ) :
    (tickFuelState s dt).impactVelocity = s.impactVelocity := by
  unfold tickFuelState; split_ifs <;> rfl

/-- On a state that is still in flight, `tick` is the fuel-accounting step
followed by the velocity/altitude integration and the touchdown check. -/
theorem tick_of_inflight (s : LunarLander) (dt : ℚ)
    (hl : s.landed = false) (hc : s.crashed = false) :
    tick s dt =
      if tickRawAltitude s dt ≤ 0 then
        if tickVelocity s dt ≤ s.safeLandingSpeed then
          { tickFuelState s dt with
            altitude := 0
            impactVelocity := some (tickVelocity s dt)
            landed := true
            velocity := 0
            thrust := 0 }
        else
          { tickFuelState s dt with
            altitude := 0
            impactVelocity := some (tickVelocity s dt)
            crashed := true
            velocity := 0
            thrust := 0 }
      else
        { tickFuelState s dt with
          velocity := tickVelocity s dt
          altitude := tickRawAltitude s dt } := by
  unfold tick tickRawAltitude tickFuelState tickVelocity tickThrustAccel
  by_cases hf : s.fuel > 0
  · by_cases hcut : s.fuel - s.thrust * FUEL_CONSUMPTION_RATE * dt ≤ 0
    · simp [hl, hc, hf, hcut, tickVelocity, tickThrustAccel]
    · simp [hl, hc, hf, hcut, tickVelocity, tickThrustAccel]
  · by_cases ho : s.outOfFuel
    · simp [hl, hc, hf, ho, tickVelocity, tickThrustAccel]
    · simp [hl, hc, hf, ho, tickVelocity, tickThrustAccel]

/-- After touchdown the physics update returns the state untouched. -/
theorem tick_terminal (s : LunarLander) (dt : ℚ)
    (h : s.landed = true ∨ s.crashed = true) :
    tick s dt = s := by
  unfold tick
  rcases h with h | h <;> simp [h]

/-- `outcome = InFlight` says exactly that both flags are still down. -/
theorem outcome_inflight_iff (s : LunarLander) :
    s.outcome = Outcome.InFlight ↔ s.landed = false ∧ s.crashed = false := by
  unfold LunarLander.outcome
  by_cases hl : s.landed <;> by_cases hc : s.crashed <;> simp [hl, hc]

/-- Ticking any number of times after touchdown returns the state untouched. -/
theorem runTicks_terminal (s : LunarLander) (dts : List ℚ)
    (h : s.landed = true ∨ s.crashed = true) :
    runTicks s dts = s := by
  induction dts with
  | nil => rfl
  | cons d ds ih =>
    show List.foldl tick (tick s d) ds = s
    rw [tick_terminal s d h]
    exact ih

/-- Clamping below 100 and above 0 commutes, so the source's
`Math.max(0, Math.min(100, x))` is the spec's `min(100, max(0, x))`. -/
theorem clamp_comm (x : ℚ) : max 0 (min 100 x) = min 100 (max 0 x) := by
  rw [max_min_distrib_left]
  norm_num

/-- The fuel branch of `tick` cannot increase fuel, keeps it non-negative,
and keeps the thrust command non-negative. -/
theorem tickFuelState_fuel_bounds (s : LunarLander) (dt : ℚ)
    (hth : 0 ≤ s.thrust) (hdt : 0 ≤ dt) :
    (tickFuelState s dt).fuel ≤ s.fuel ∧
    (0 ≤ s.fuel → 0 ≤ (tickFuelState s dt).fuel) ∧
    0 ≤ (tickFuelState s dt).thrust := by
  have hcons : 0 ≤ s.thrust * FUEL_CONSUMPTION_RATE * dt :=
    mul_nonneg (mul_nonneg hth (by norm_num [FUEL_CONSUMPTION_RATE])) hdt
  unfold tickFuelState
  by_cases hf : s.fuel > 0
  · by_cases hcut : s.fuel - s.thrust * FUEL_CONSUMPTION_RATE * dt ≤ 0
    · simp only [hf, hcut, if_true, if_pos]
      refine ⟨le_of_lt hf, fun _ => le_refl 0, le_refl 0⟩
    · simp only [hf, hcut, if_true, if_false, if_pos, if_neg, not_false_iff]
      refine ⟨by linarith, fun _ => by linarith [lt_of_not_le hcut], hth⟩
  · rw [if_neg hf]
    by_cases ho : s.outOfFuel
    · simp only [ho, Bool.not_true, cond_false, if_neg]
      refine ⟨le_refl _, fun h => h, hth⟩
    · simp only [ho, Bool.not_false, cond_true, if_pos]
      refine ⟨le_refl _, fun h => h, le_refl 0⟩

/-- One tick cannot increase fuel, keeps it non-negative, and keeps the
thrust command non-negative. -/
theorem tick_fuel_step (s : LunarLander) (dt : ℚ)
    (hth : 0 ≤ s.thrust) (hdt : 0 ≤ dt) :
    (tick s dt).fuel ≤ s.fuel ∧
    (0 ≤ s.fuel → 0 ≤ (tick s dt).fuel) ∧
    0 ≤ (tick s dt).thrust := by
  by_cases hterm : s.landed = true ∨ s.crashed = true
  · rw [tick_terminal s dt hterm]
    exact ⟨le_refl _, fun h => h, hth⟩
  · push_neg at hterm
    obtain ⟨hl, hc⟩ := hterm
    simp only [ne_eq, Bool.not_eq_true] at hl hc
    obtain ⟨h1, h2, h3⟩ := tickFuelState_fuel_bounds s dt hth hdt
    rw [tick_of_inflight s dt hl hc]
    by_cases hland : tickRawAltitude s dt ≤ 0
    · rw [if_pos hland]
      by_cases hv : tickVelocity s dt ≤ s.safeLandingSpeed
      · rw [if_pos hv]; exact ⟨h1, h2, le_refl 0⟩
      · rw [if_neg hv]; exact ⟨h1, h2, le_refl 0⟩
    · rw [if_neg hland]; exact ⟨h1, h2, h3⟩

/-- Fuel bounds propagated along a whole tick sequence. -/
theorem runTicks_fuel_aux (dts : List ℚ) :
    ∀ s : LunarLander, 0 ≤ s.fuel → 0 ≤ s.thrust → (∀ d ∈ dts, 0 ≤ d) →
      (runTicks s dts).fuel ≤ s.fuel ∧ 0 ≤ (runTicks s dts).fuel := by
  induction dts with
  | nil => exact fun s hf _ _ => ⟨le_refl _, hf⟩
  | cons d ds ih =>
    intro s hf hth hdts
    have hd : 0 ≤ d := hdts d (List.mem_cons_self d ds)
    obtain ⟨h1, h2, h3⟩ := tick_fuel_step s d hth hd
    have hstep : runTicks s (d :: ds) = runTicks (tick s d) ds := rfl
    rw [hstep]
    obtain ⟨hih1, hih2⟩ :=
      ih (tick s d) (h2 hf) h3 (fun x hx => hdts x (List.mem_cons_of_mem d hx))
    exact ⟨le_trans hih1 h1, hih2⟩

/-- A tick taken with the engine off consumes no fuel. -/
theorem tick_fuel_zero_thrust (s : LunarLander) (dt : ℚ) (h : s.thrust = 0) :
    (tick s dt).fuel = s.fuel := by
  by_cases hterm : s.landed = true ∨ s.crashed = true
  · rw [tick_terminal s dt hterm]
  · push_neg at hterm
    obtain ⟨hl, hc⟩ := hterm
    simp only [ne_eq, Bool.not_eq_true] at hl hc
    have hfs : (tickFuelState s dt).fuel = s.fuel := by
      unfold tickFuelState
      by_cases hf : s.fuel > 0
      · have hf2 : ¬s.fuel ≤ 0 := not_le.mpr hf
        simp [hf, hf2, h]
      · simp [hf]
        by_cases ho : s.outOfFuel <;> simp [ho]
    rw [tick_of_inflight s dt hl hc]
    by_cases hland : tickRawAltitude s dt ≤ 0
    · rw [if_pos hland]
      by_cases hv : tickVelocity s dt ≤ s.safeLandingSpeed
      · rw [if_pos hv]; exact hfs
      · rw [if_neg hv]; exact hfs
    · rw [if_neg hland]; exact hfs

/-! ## Claim theorems -/

/-- C1: at the first tick in which the integrated altitude becomes ≤ 0
(state still in flight), the altitude is set to exactly 0, the impact
velocity is recorded as the velocity immediately before it is zeroed, and
the outcome becomes `Landed` exactly when that impact velocity is at most
`safeLandingSpeed` (inclusive boundary) and `Crashed` exactly when it
exceeds it. -/
theorem tick_touchdown (s : LunarLander) (dt : ℚ)
    (hl : s.landed = false) (hc : s.crashed = false)
    (hland : tickRawAltitude s dt ≤ 0) :
    (tick s dt).altitude = 0 ∧
    (tick s dt).impactVelocity = some (tickVelocity s dt) ∧
    (tick s dt).velocity = 0 ∧
    ((tick s dt).outcome = Outcome.Landed ↔ tickVelocity s dt ≤ s.safeLandingSpeed) ∧
    ((tick s dt).outcome = Outcome.Crashed ↔ s.safeLandingSpeed < tickVelocity s dt) := by
  rw [tick_of_inflight s dt hl hc, if_pos hland]
  by_cases hv : tickVelocity s dt ≤ s.safeLandingSpeed
  · rw [if_pos hv]
    refine ⟨rfl, rfl, rfl, ?_, ?_⟩ <;>
      simp [LunarLander.outcome, hv, not_lt.mpr hv]
  · rw [if_neg hv]
    have hld : (tickFuelState s dt).landed = false := by
      rw [tickFuelState_landed]; exact hl
    refine ⟨rfl, rfl, rfl, ?_, ?_⟩ <;>
      simp [LunarLander.outcome, hld, hv, lt_of_not_le hv]

/-- C1 witness: a coasting lander whose impact velocity is exactly the safe
landing speed (velocity 3.375 + gravity 1.625 = 5 = limit) lands. -/
theorem tick_touchdown_witness :
    (tick (mkLander 1 3.375 0 5) 1).altitude = 0 ∧
    (tick (mkLander 1 3.375 0 5) 1).impactVelocity =
      some (tickVelocity (mkLander 1 3.375 0 5) 1) ∧
    (tick (mkLander 1 3.375 0 5) 1).velocity = 0 ∧
    ((tick (mkLander 1 3.375 0 5) 1).outcome = Outcome.Landed ↔
      tickVelocity (mkLander 1 3.375 0 5) 1 ≤ (mkLander 1 3.375 0 5).safeLandingSpeed) ∧
    ((tick (mkLander 1 3.375 0 5) 1).outcome = Outcome.Crashed ↔
      (mkLander 1 3.375 0 5).safeLandingSpeed < tickVelocity (mkLander 1 3.375 0 5) 1) :=
  tick_touchdown (mkLander 1 3.375 0 5) 1 rfl rfl
    (by norm_num [tickRawAltitude, tickVelocity, tickThrustAccel, mkLander, GRAVITY])

/-- C2: on an in-flight state with fuel remaining, `tick` computes the
thrust acceleration `thrust * THRUST_POWER` and the fuel deduction; when
the deduction crosses zero, fuel becomes exactly 0, `outOfFuel` turns on
and the thrust command is cut to 0, yet this tick's velocity update still
uses the full pre-cut thrust acceleration. -/
theorem tick_fuel_cut (s : LunarLander) (dt : ℚ)
    (hl : s.landed = false) (hc : s.crashed = false) (hdt : 0 < dt)
    (hf : 0 < s.fuel)
    (hcut : s.fuel - s.thrust * FUEL_CONSUMPTION_RATE * dt ≤ 0) :
    tickThrustAccel s = s.thrust * THRUST_POWER ∧
    tickVelocity s dt = s.velocity + (GRAVITY - s.thrust * THRUST_POWER) * dt ∧
    (tick s dt).fuel = 0 ∧
    (tick s dt).outOfFuel = true ∧
    (tick s dt).thrust = 0 ∧
    (0 < tickRawAltitude s dt → (tick s dt).velocity = tickVelocity s dt) ∧
    (tickRawAltitude s dt ≤ 0 → (tick s dt).impactVelocity = some (tickVelocity s dt)) := by
  have hta : tickThrustAccel s = s.thrust * THRUST_POWER := by
    unfold tickThrustAccel; rw [if_pos hf]
  have htv : tickVelocity s dt = s.velocity + (GRAVITY - s.thrust * THRUST_POWER) * dt := by
    unfold tickVelocity; rw [hta]
  have hfs : tickFuelState s dt = { s with fuel := 0, outOfFuel := true, thrust := 0 } := by
    unfold tickFuelState; rw [if_pos hf, if_pos hcut]
  rw [tick_of_inflight s dt hl hc]
  by_cases hland : tickRawAltitude s dt ≤ 0
  · rw [if_pos hland]
    by_cases hv : tickVelocity s dt ≤ s.safeLandingSpeed
    · rw [if_pos hv]
      exact ⟨hta, htv, by simp [hfs], by simp [hfs], rfl,
        fun h => absurd hland (not_le.mpr h), fun _ => rfl⟩
    · rw [if_neg hv]
      exact ⟨hta, htv, by simp [hfs], by simp [hfs], rfl,
        fun h => absurd hland (not_le.mpr h), fun _ => rfl⟩
  · rw [if_neg hland]
    exact ⟨hta, htv, by simp [hfs], by simp [hfs], by simp [hfs], fun _ => rfl,
      fun h => absurd h hland⟩

/-- C2 witness: 1 kg of fuel at 50 % thrust for one second consumes 5 kg,
so the tank clamps to 0, the engine cuts, and the full 7.5 m/s² thrust
acceleration is still applied to this tick's velocity. -/
theorem tick_fuel_cut_witness :
    tickThrustAccel { mkLander 100 0 1 5 with thrust := 50 } =
      ({ mkLander 100 0 1 5 with thrust := 50 } : LunarLander).thrust * THRUST_POWER ∧
    tickVelocity { mkLander 100 0 1 5 with thrust := 50 } 1 =
      ({ mkLander 100 0 1 5 with thrust := 50 } : LunarLander).velocity +
        (GRAVITY - ({ mkLander 100 0 1 5 with thrust := 50 } : LunarLander).thrust *
          THRUST_POWER) * 1 ∧
    (tick { mkLander 100 0 1 5 with thrust := 50 } 1).fuel = 0 ∧
    (tick { mkLander 100 0 1 5 with thrust := 50 } 1).outOfFuel = true ∧
    (tick { mkLander 100 0 1 5 with thrust := 50 } 1).thrust = 0 ∧
    (0 < tickRawAltitude { mkLander 100 0 1 5 with thrust := 50 } 1 →
      (tick { mkLander 100 0 1 5 with thrust := 50 } 1).velocity =
        tickVelocity { mkLander 100 0 1 5 with thrust := 50 } 1) ∧
    (tickRawAltitude { mkLander 100 0 1 5 with thrust := 50 } 1 ≤ 0 →
      (tick { mkLander 100 0 1 5 with thrust := 50 } 1).impactVelocity =
        some (tickVelocity { mkLander 100 0 1 5 with thrust := 50 } 1)) :=
  tick_fuel_cut { mkLander 100 0 1 5 with thrust := 50 } 1 rfl rfl (by norm_num)
    (by norm_num [mkLander]) (by norm_num [mkLander, FUEL_CONSUMPTION_RATE])

/-- C3: along any sequence of ticks from a state with non-negative fuel
(and the invariant 0 ≤ thrust that `setThrust` and the constructor
maintain), fuel is non-increasing and never becomes negative; a tick taken
with thrust 0 leaves fuel unchanged; and an in-flight deduction that would
cross zero sets fuel to exactly 0. -/
theorem fuel_invariants (s : LunarLander) (dts : List ℚ)
    (hf : 0 ≤ s.fuel) (hth : 0 ≤ s.thrust) (hdts : ∀ d ∈ dts, 0 ≤ d) :
    (runTicks s dts).fuel ≤ s.fuel ∧
    0 ≤ (runTicks s dts).fuel ∧
    (∀ dt : ℚ, s.thrust = 0 → (tick s dt).fuel = s.fuel) ∧
    (∀ dt : ℚ, s.landed = false → s.crashed = false → 0 < s.fuel →
      s.fuel - s.thrust * FUEL_CONSUMPTION_RATE * dt ≤ 0 → (tick s dt).fuel = 0) := by
  obtain ⟨h1, h2⟩ := runTicks_fuel_aux dts s hf hth hdts
  refine ⟨h1, h2, fun dt h => tick_fuel_zero_thrust s dt h, fun dt hl hc hpos hcut => ?_⟩
  have hfs : (tickFuelState s dt).fuel = 0 := by
    unfold tickFuelState; rw [if_pos hpos, if_pos hcut]
  rw [tick_of_inflight s dt hl hc]
  by_cases hland : tickRawAltitude s dt ≤ 0
  · rw [if_pos hland]
    by_cases hv : tickVelocity s dt ≤ s.safeLandingSpeed
    · rw [if_pos hv]; exact hfs
    · rw [if_neg hv]; exact hfs
  · rw [if_neg hland]; exact hfs

/-- C3 witness: 5 kg of fuel at 10 % thrust over two one-second ticks. -/
theorem fuel_invariants_witness :
    (runTicks { mkLander 100 0 5 5 with thrust := 10 } [1, 1]).fuel ≤
      ({ mkLander 100 0 5 5 with thrust := 10 } : LunarLander).fuel ∧
    0 ≤ (runTicks { mkLander 100 0 5 5 with thrust := 10 } [1, 1]).fuel ∧
    (∀ dt : ℚ, ({ mkLander 100 0 5 5 with thrust := 10 } : LunarLander).thrust = 0 →
      (tick { mkLander 100 0 5 5 with thrust := 10 } dt).fuel =
        ({ mkLander 100 0 5 5 with thrust := 10 } : LunarLander).fuel) ∧
    (∀ dt : ℚ, ({ mkLander 100 0 5 5 with thrust := 10 } : LunarLander).landed = false →
      ({ mkLander 100 0 5 5 with thrust := 10 } : LunarLander).crashed = false →
      0 < ({ mkLander 100 0 5 5 with thrust := 10 } : LunarLander).fuel →
      ({ mkLander 100 0 5 5 with thrust := 10 } : LunarLander).fuel -
        ({ mkLander 100 0 5 5 with thrust := 10 } : LunarLander).thrust *
          FUEL_CONSUMPTION_RATE * dt ≤ 0 →
      (tick { mkLander 100 0 5 5 with thrust := 10 } dt).fuel = 0) :=
  fuel_invariants { mkLander 100 0 5 5 with thrust := 10 } [1, 1]
    (by norm_num [mkLander]) (by norm_num [mkLander]) (by norm_num)

/-- C4: from any state with non-negative altitude, one tick leaves the
altitude non-negative; in flight, whenever the integration step would carry
the altitude to or below zero it is clamped to exactly 0. -/
theorem altitude_floor (s : LunarLander) (dt : ℚ)
    (ha : 0 ≤ s.altitude) (hdt : 0 < dt) :
    0 ≤ (tick s dt).altitude ∧
    (s.landed = false → s.crashed = false → tickRawAltitude s dt ≤ 0 →
      (tick s dt).altitude = 0) := by
  by_cases hterm : s.landed = true ∨ s.crashed = true
  · rw [tick_terminal s dt hterm]
    refine ⟨ha, fun hl hc _ => ?_⟩
    rcases hterm with h | h
    · rw [hl] at h; exact absurd h (by simp)
    · rw [hc] at h; exact absurd h (by simp)
  · push_neg at hterm
    obtain ⟨hl, hc⟩ := hterm
    simp only [ne_eq, Bool.not_eq_true] at hl hc
    rw [tick_of_inflight s dt hl hc]
    by_cases hland : tickRawAltitude s dt ≤ 0
    · rw [if_pos hland]
      by_cases hv : tickVelocity s dt ≤ s.safeLandingSpeed
      · rw [if_pos hv]; exact ⟨le_refl 0, fun _ _ _ => rfl⟩
      · rw [if_neg hv]; exact ⟨le_refl 0, fun _ _ _ => rfl⟩
    · rw [if_neg hland]
      exact ⟨le_of_lt (lt_of_not_le hland), fun _ _ h => absurd h hland⟩

/-- C4 witness: a fast lander 10 m up overshoots far below the surface in
one second and is clamped to altitude exactly 0. -/
theorem altitude_floor_witness :
    0 ≤ (tick (mkLander 10 50 0 5) 1).altitude ∧
    ((mkLander 10 50 0 5).landed = false → (mkLander 10 50 0 5).crashed = false →
      tickRawAltitude (mkLander 10 50 0 5) 1 ≤ 0 →
      (tick (mkLander 10 50 0 5) 1).altitude = 0) :=
  altitude_floor (mkLander 10 50 0 5) 1 (by norm_num [mkLander]) (by norm_num)

/-- C5: once the outcome is no longer `InFlight`, any number of further
ticks, with any positive elapsed times, returns the state completely
unchanged — altitude, velocity, fuel, thrust command, `outOfFuel`, outcome
and impact velocity included. -/
theorem tick_terminal_noop (s : LunarLander) (dts : List ℚ)
    (hterm : s.outcome ≠ Outcome.InFlight) (hdts : ∀ d ∈ dts, 0 < d) :
    runTicks s dts = s := by
  have h : s.landed = true ∨ s.crashed = true := by
    by_contra hcon
    push_neg at hcon
    obtain ⟨hl, hc⟩ := hcon
    simp only [ne_eq, Bool.not_eq_true] at hl hc
    exact hterm ((outcome_inflight_iff s).mpr ⟨hl, hc⟩)
  exact runTicks_terminal s dts h

/-- C5 witness: a landed state survives two further ticks untouched. -/
theorem tick_terminal_noop_witness :
    runTicks { mkLander 0 0 100 5 with landed := true } [1, 2] =
      { mkLander 0 0 100 5 with landed := true } :=
  tick_terminal_noop { mkLander 0 0 100 5 with landed := true } [1, 2]
    (by simp [mkLander, LunarLander.outcome]) (by norm_num)

/-- C6 counterexample: on the freshly constructed mission with
`initialFuel = 0` the lander is in flight and `outOfFuel` is still false,
yet `setThrust 50` stores 0, not the clamp `min 100 (max 0 50) = 50` the
claim predicts — the source's guard is `fuel ≤ 0`, not the `outOfFuel`
flag. -/
theorem setThrust_outOfFuel_cex :
    (mkLander 1000 50 0 5).outOfFuel = false ∧
    (mkLander 1000 50 0 5).outcome = Outcome.InFlight ∧
    (setThrust (mkLander 1000 50 0 5) 50).thrust = 0 ∧
    (setThrust (mkLander 1000 50 0 5) 50).thrust ≠ min 100 (max 0 (50 : ℚ)) := by
  refine ⟨rfl, rfl, ?_, ?_⟩ <;> norm_num [setThrust, mkLander]

/-- C6 (amended): for every real x and every state, `setThrust x` stores
`min(100, max(0, x))` as the thrust command, except that it stores 0 when
`fuel ≤ 0` or when the outcome is no longer `InFlight`; no input is ever
rejected. -/
theorem setThrust_clamp (s : LunarLander) (x : ℚ) :
    (setThrust s x).thrust =
      if s.outcome ≠ Outcome.InFlight then 0
      else if s.fuel ≤ 0 then 0
      else min 100 (max 0 x) := by
  unfold setThrust
  by_cases hl : s.landed <;> by_cases hc : s.crashed <;>
    simp [LunarLander.outcome, hl, hc] <;>
    by_cases hf : s.fuel ≤ 0 <;>
    simp [hf, clamp_comm]

/-- C7, spec Scenario B: from altitude 5, velocity 0, fuel 1000 and full
thrust, one 1-second tick gives thrust acceleration 15, net acceleration
−13.375, velocity −13.375 (ascending) and altitude 18.375, still in
flight. -/
theorem scenarioB_full_thrust :
    tickThrustAccel { mkLander 5 0 1000 5 with thrust := 100 } = 15 ∧
    GRAVITY - tickThrustAccel { mkLander 5 0 1000 5 with thrust := 100 } = -(13.375 : ℚ) ∧
    (tick { mkLander 5 0 1000 5 with thrust := 100 } 1).velocity = -(13.375 : ℚ) ∧
    (tick { mkLander 5 0 1000 5 with thrust := 100 } 1).altitude = 18.375 ∧
    (tick { mkLander 5 0 1000 5 with thrust := 100 } 1).outcome = Outcome.InFlight := by
  norm_num [mkLander, tick, tickThrustAccel, LunarLander.outcome, GRAVITY,
    THRUST_POWER, FUEL_CONSUMPTION_RATE]

/-- C8: `setThrust` writes at most the thrust command — altitude, velocity,
fuel, safe landing speed, `outOfFuel`, both flags, the outcome and the
impact velocity are untouched, so in particular no fuel is consumed. -/
theorem setThrust_frame (s : LunarLander) (x : ℚ) :
    (setThrust s x).altitude = s.altitude ∧
    (setThrust s x).velocity = s.velocity ∧
    (setThrust s x).fuel = s.fuel ∧
    (setThrust s x).safeLandingSpeed = s.safeLandingSpeed ∧
    (setThrust s x).outOfFuel = s.outOfFuel ∧
    (setThrust s x).landed = s.landed ∧
    (setThrust s x).crashed = s.crashed ∧
    (setThrust s x).outcome = s.outcome ∧
    (setThrust s x).impactVelocity = s.impactVelocity := by
  unfold setThrust
  by_cases hl : s.landed <;> by_cases hc : s.crashed <;>
    simp [LunarLander.outcome, hl, hc]

/-- C9: a pilot input line that parses to a number updates the pending
command through `setThrust`; a non-empty non-numeric line yields the
invalid-input notice and leaves the state unchanged; an empty (whitespace)
line is silently ignored and leaves the state unchanged. -/
theorem processThrustLine_cases (s : LunarLander) (answer : String) :
    (∀ n : Int, parseIntJS answer = some n →
      processThrustLine s answer = (setThrust s (n : ℚ), InputEffect.applied n)) ∧
    (parseIntJS answer = none → jsTrim answer ≠ "" →
      processThrustLine s answer = (s, InputEffect.invalidNotice)) ∧
    (parseIntJS answer = none → jsTrim answer = "" →
      processThrustLine s answer = (s, InputEffect.ignoredEmpty)) := by
  refine ⟨?_, ?_, ?_⟩
  · intro n hn
    unfold processThrustLine
    rw [hn]
  · intro hn hne
    unfold processThrustLine
    rw [hn]
    exact if_pos hne
  · intro hn he
    unfold processThrustLine
    rw [hn]
    exact if_neg (not_ne_iff.mpr he)

/-- C9 witness: the numeric line `"42"`, the invalid line `"abc"` and a
blank line, each processed on the default mission state. -/
theorem processThrustLine_cases_witness :
    processThrustLine (mkLander 1000 50 1200 5) "42" =
      (setThrust (mkLander 1000 50 1200 5) ((42 : Int) : ℚ), InputEffect.applied 42) ∧
    processThrustLine (mkLander 1000 50 1200 5) "abc" =
      (mkLander 1000 50 1200 5, InputEffect.invalidNotice) ∧
    processThrustLine (mkLander 1000 50 1200 5) "  " =
      (mkLander 1000 50 1200 5, InputEffect.ignoredEmpty) :=
  ⟨(processThrustLine_cases (mkLander 1000 50 1200 5) "42").1 42 (by decide),
   (processThrustLine_cases (mkLander 1000 50 1200 5) "abc").2.1 (by decide) (by decide),
   (processThrustLine_cases (mkLander 1000 50 1200 5) "  ").2.2 (by decide) (by decide)⟩

/-- C10: in every in-flight state with `fuel ≤ 0`, `setThrust` stores 0
whatever was requested — the guard is the fuel level itself, not the
`outOfFuel` flag, so it already fires on a mission constructed with
`initialFuel = 0` before its first tick. -/
theorem setThrust_fuel_guard (s : LunarLander) (x : ℚ)
    (hf : s.fuel ≤ 0) (hout : s.outcome = Outcome.InFlight) :
    (setThrust s x).thrust = 0 := by
  obtain ⟨hl, hc⟩ := (outcome_inflight_iff s).mp hout
  unfold setThrust
  simp [hl, hc, hf]

/-- C10 witness: the mission constructed with zero fuel, whose `outOfFuel`
flag is still false, already refuses a 75 % thrust request. -/
theorem setThrust_fuel_guard_witness :
    (mkLander 1000 50 0 5).outOfFuel = false ∧
    (setThrust (mkLander 1000 50 0 5) 75).thrust = 0 :=
  ⟨rfl, setThrust_fuel_guard (mkLander 1000 50 0 5) 75 le_rfl rfl⟩

end BunMoon
